import Mathlib

/-!
Verification of the generic `DescribeOnlySource` engine of the aws-source
repository (package `sources`, file `describe_source.go`).

The engine implements the `Get` / `List` / `Search` contract of an AWS
"describe-only" source: it validates the requested scope, consults a
per-source response cache, builds SDK inputs through caller-supplied
mappers, calls the (possibly paginated) describe routine, maps the output
to items and stores results or errors back into the cache.

The embedding below translates the engine from the Go source.  Callbacks
(`DescribeFunc`, the input mappers, `OutputMapper`, `PaginatorBuilder`)
are modelled as pure Lean functions returning `Except`; the cache is an
explicit association list threaded through each operation; observable
side effects (cache lookups and stores, describe calls, paginator
`NextPage` calls) are counted in an `Effects` record returned alongside
the result.  Helper code living outside the extracted sources
(`FormatScope`, `ParseARN`, `WrapAWSError`, the sdpcache operations and
the sdp-go item accessors) is modelled from the spec, as marked on each
definition.
-/

set_option autoImplicit false

/-- Modelled from the spec: the error-kind taxonomy of sdp-go `QueryError`
(NoScope / NotFound / Other plus the spec's distinct Unsupported kind),
§7 of the spec.  The extracted sources use the constants
`QueryError_NOSCOPE`, `QueryError_NOTFOUND` and `QueryError_OTHER`. -/
inductive QueryErrorType where
  | NOSCOPE
  | NOTFOUND
  | OTHER
  | NOTSUPPORTED
deriving DecidableEq

/-- Modelled from the spec: an sdp-go `QueryError`, a structured error with
an error kind, a message string and an optional scope. -/
structure QueryError where
  errType : QueryErrorType
  errString : String
  errScope : String
deriving DecidableEq

/-- A Go `error` value as seen by the engine: either a structured sdp-go
`QueryError`, a plain error carrying only a message (SDK / mapper errors),
or the context-cancellation error `context.Canceled`. -/
inductive GoErr where
  | query (q : QueryError)
  | plain (msg : String)
  | canceled
deriving DecidableEq

/-- The kind of a Go error when it is a structured `QueryError`. -/
def goErrKind : GoErr → Option QueryErrorType
  | .query q => some q.errType
  | .plain _ => none
  | .canceled => none

/-- Modelled from the spec: `WrapAWSError` (package `sources`, not under the
extracted files) wraps any error into the uniform taxonomy so that callers
never see raw SDK error types: an existing `QueryError` passes through
unchanged, any other error becomes an OTHER `QueryError` carrying the
original error message. -/
def WrapAWSError : GoErr → GoErr
  | .query q => .query q
  | .plain msg => .query ⟨.OTHER, msg, ""⟩
  | .canceled => .query ⟨.OTHER, "context canceled", ""⟩

/-- Modelled from the spec: an sdp-go `Item` restricted to the fields the
engine reads — its type tag, its scope, and the value of its unique
attribute (the Go accessor `UniqueAttributeValue()`). -/
structure Item where
  itemType : String
  itemScope : String
  uniqueAttributeValue : String
deriving DecidableEq

/-- Modelled from the spec: the sdp-go fully-qualified (globally unique)
name of an item, `{scope}.{type}.{uniqueAttributeValue}` — "a namespace
string ... within which a unique-attribute value identifies exactly one
item". -/
def Item.globallyUniqueName (i : Item) : String :=
  i.itemScope ++ "." ++ i.itemType ++ "." ++ i.uniqueAttributeValue

/-- Modelled from the spec: `FormatScope` (package `sources`, not under the
extracted files) builds the scope string, `{accountID}.{region}` for
regional resources and the account id alone when there is no region
(global resources), §6 of the spec. -/
def FormatScope (accountID region : String) : String :=
  if region = "" then accountID else accountID ++ "." ++ region

/-- Modelled from the spec: a parsed AWS ARN
`arn:partition:service:region:account-id:resource`. -/
structure ARN where
  arnPartition : String
  arnService : String
  arnRegion : String
  arnAccountID : String
  arnResource : String
deriving DecidableEq

/-- Split a character list at a separator character.  Always returns at
least one (possibly empty) group; agrees with `String.splitOn` for a
one-character separator.  (Defined structurally so that proofs can be
checked by evaluation.) -/
def splitOnChar (sep : Char) : List Char → List (List Char)
  | [] => [[]]
  | c :: rest =>
      match splitOnChar sep rest with
      | [] => if c = sep then [[], []] else [[c]]
      | g :: gs => if c = sep then [] :: g :: gs else (c :: g) :: gs

/-- Split a string at a separator character. -/
def splitString (sep : Char) (s : String) : List String :=
  (splitOnChar sep s.data).map fun cs => String.mk cs

/-- Modelled from the spec: `ParseARN` splits a query of the form
`arn:partition:service:region:account-id:resource` on colons (the resource
section may itself contain colons); anything else is a plain parse
error. -/
def ParseARN (query : String) : Except GoErr ARN :=
  match splitString ':' query with
  | "arn" :: part :: service :: region :: accountID :: r :: rest =>
      .ok ⟨part, service, region, accountID, String.intercalate ":" (r :: rest)⟩
  | _ => .error (.plain ("invalid ARN: " ++ query))

/-- The final segment of `s` when split at `sep` (`s` itself when there is
no separator). -/
def lastSegment (sep : Char) (s : String) : String :=
  match (splitString sep s).getLast? with
  | some x => x
  | none => s

/-- Modelled from the spec: `ARN.ResourceID` returns the resource-id
portion of the ARN — the final segment of the resource section after its
`/` or `:` separators (the spec's example: the resource-id of
`resource/abc` is `abc`). -/
def ARN.resourceID (a : ARN) : String :=
  lastSegment ':' (lastSegment '/' a.arnResource)

/-- The sdp-go query methods used by the engine's cache keys. -/
inductive QueryMethod where
  | GET
  | LIST
  | SEARCH
deriving DecidableEq

/-- Modelled from the spec: an sdpcache `CacheKey` built from
(source name, query method, scope, item type, query string), §4.2. -/
structure CacheKey where
  srcName : String
  method : QueryMethod
  keyScope : String
  keyItemType : String
  keyQuery : String
deriving DecidableEq

/-- A cache entry holds either a stored item list or a stored error,
§4.2 of the spec. -/
inductive CacheEntry where
  | items (xs : List Item)
  | err (e : GoErr)
deriving DecidableEq

/-- The cache state: an association list from keys to entries.  A store
shadows any earlier entry for the same key (lookups read the newest). -/
def Cache : Type := List (CacheKey × CacheEntry)

instance : DecidableEq Cache := by
  unfold Cache
  infer_instance

/-- The newest entry stored under a key, if any. -/
def entryAt (c : Cache) (ck : CacheKey) : Option CacheEntry :=
  (c.find? fun p => decide (p.1 = ck)).map (·.2)

/-- The item list stored under a key (empty when the key is absent or
holds an error). -/
def itemsAt (c : Cache) (ck : CacheKey) : List Item :=
  match entryAt c ck with
  | some (.items xs) => xs
  | _ => []

/-- Modelled from the spec: sdpcache `Lookup` — returns a hit flag, any
cached items and any cached error; `ignoreCache` forces a miss (the fresh
result is still written back), and a stored error is surfaced to the
caller, §4.2. -/
def cacheLookup (c : Cache) (ck : CacheKey) (ignoreCache : Bool) :
    Bool × List Item × Option GoErr :=
  if ignoreCache then (false, [], none)
  else
    match entryAt c ck with
    | none => (false, [], none)
    | some (.items xs) => (true, xs, none)
    | some (.err e) => (true, [], some e)

/-- Modelled from the spec: sdpcache `StoreError` records an error under
the key (the TTL is not modelled: every claim below is stated inside one
cache-validity window, with no intervening expiry). -/
def storeError (c : Cache) (ck : CacheKey) (e : GoErr) : Cache :=
  (ck, .err e) :: c

/-- Modelled from the spec: sdpcache `StoreItem` appends one item to the
entry under the key, so that items stored one by one by a `List` call are
all returned together by the next `Lookup`. -/
def storeItem (c : Cache) (ck : CacheKey) (i : Item) : Cache :=
  (ck, .items (itemsAt c ck ++ [i])) :: c

/-- Store a list of items one by one, in order (the `for ... StoreItem`
loops of `List` and `searchCustom`). -/
def storeAll (c : Cache) (ck : CacheKey) : List Item → Cache
  | [] => c
  | i :: rest => storeAll (storeItem c ck i) ck rest

/-- Counters for the observable effects of one engine operation. -/
structure Effects where
  lookups : Nat
  describeCalls : Nat
  nextPageCalls : Nat
  storeItems : Nat
  storeErrors : Nat
deriving DecidableEq

/-- No effect at all (scope-mismatch and fail-fast paths). -/
def noEffects : Effects := ⟨0, 0, 0, 0, 0⟩

/-- Exactly one cache lookup and nothing else (cache-hit paths). -/
def lookupOnly : Effects := ⟨1, 0, 0, 0, 0⟩

/-- The `DescribeOnlySource` configuration struct, translated from
`describe_source.go`.  The client, config and context parameters of the
Go callbacks are dropped (the callbacks close over them); the three
callbacks that `Validate` requires to be non-nil (`DescribeFunc`,
`InputMapperGet`, `OutputMapper`) are total fields here, the optional
ones (`InputMapperList`, `InputMapperSearch`, `PaginatorBuilder`) stay
`Option`.  A paginator is determinized as the list of page results its
successive `NextPage` calls would yield; `HasMorePages` is that list
being nonempty. -/
structure DescribeOnlySource (Input Output : Type) where
  ItemType : String
  AccountID : String
  Region : String
  UseListForGet : Bool
  DescribeFunc : Input → Except GoErr Output
  InputMapperGet : String → String → Except GoErr Input
  InputMapperList : Option (String → Except GoErr Input)
  InputMapperSearch : Option (String → String → Except GoErr Input)
  PaginatorBuilder : Option (Input → List (Except GoErr Output))
  OutputMapper : String → Input → Output → Except GoErr (List Item)

/-- `Name()` returns `{itemType}-source`. -/
def DescribeOnlySource.name {Input Output : Type}
    (s : DescribeOnlySource Input Output) : String :=
  s.ItemType ++ "-source"

/-- `Scopes()` returns the single scope `FormatScope(AccountID, Region)`. -/
def DescribeOnlySource.scopes {Input Output : Type}
    (s : DescribeOnlySource Input Output) : List String :=
  [FormatScope s.AccountID s.Region]

/-- `Validate` checks that `DescribeFunc`, `InputMapperGet` and
`OutputMapper` are non-nil.  Those three are total fields of this
embedding, so the checks always pass. -/
def DescribeOnlySource.validate {Input Output : Type}
    (_ : DescribeOnlySource Input Output) : Option GoErr :=
  none

/-- `Paginated()` is true iff a `PaginatorBuilder` was supplied. -/
def DescribeOnlySource.paginated {Input Output : Type}
    (s : DescribeOnlySource Input Output) : Bool :=
  s.PaginatorBuilder.isSome

/-- The scope-mismatch error returned by all three operations:
`requested scope %v does not match source scope %v`. -/
def noScopeError {Input Output : Type}
    (s : DescribeOnlySource Input Output) (scope : String) : GoErr :=
  .query ⟨.NOSCOPE,
    "requested scope " ++ scope ++ " does not match source scope "
      ++ FormatScope s.AccountID s.Region, ""⟩

/-- The NOTFOUND error of `Get`: `%v %v not found`. -/
def notFoundError {Input Output : Type}
    (s : DescribeOnlySource Input Output) (query : String) : GoErr :=
  .query ⟨.NOTFOUND, s.ItemType ++ " " ++ query ++ " not found", ""⟩

/-- The ambiguous-result error of `Get`:
`Request returned > 1 item for a GET request. Items: %v` with the
globally unique names of all found items joined by `, `. -/
def ambiguousGetError (items : List Item) : GoErr :=
  .query ⟨.OTHER,
    "Request returned > 1 item for a GET request. Items: "
      ++ String.intercalate ", " (items.map Item.globallyUniqueName), ""⟩

/-- The `UseListForGet` filter of `Get`: scan the mapped items and keep
the first one whose unique attribute value equals the query (the Go loop
`break`s at the first match), so the result is a singleton or empty. -/
def filterForGet : List Item → String → List Item
  | [], _ => []
  | i :: rest, query =>
      if i.uniqueAttributeValue = query then [i] else filterForGet rest query

/-- The result of one `Get` call: the returned item pointer, the returned
error, the cache state after the call and the effect counters. -/
structure GetOutcome where
  item : Option Item
  err : Option GoErr
  cache : Cache
  eff : Effects
deriving DecidableEq

/-- The result of one `List` or `Search` call. -/
structure ListOutcome where
  items : List Item
  err : Option GoErr
  cache : Cache
  eff : Effects
deriving DecidableEq

/-- `Get` translated from `describe_source.go`: scope check, `Validate`,
cache lookup (a cached error is returned as-is; a hit returns the first
cached item, or nil item with nil error when the hit holds no items);
on a miss: `InputMapperGet`, `DescribeFunc`, `OutputMapper` (each error
is wrapped and stored), the `UseListForGet` filter, then the
exactly-one-item check: more than one item is the ambiguous OTHER error,
zero items the NOTFOUND error — both stored; one item is stored and
returned. -/
def DescribeOnlySource.Get {Input Output : Type}
    (s : DescribeOnlySource Input Output) (cache : Cache)
    (scope query : String) (ignoreCache : Bool) : GetOutcome :=
  if scope ≠ FormatScope s.AccountID s.Region then
    ⟨none, some (noScopeError s scope), cache, noEffects⟩
  else
    match s.validate with
    | some e => ⟨none, some (WrapAWSError e), cache, noEffects⟩
    | none =>
      let ck : CacheKey := ⟨s.name, .GET, scope, s.ItemType, query⟩
      match cacheLookup cache ck ignoreCache with
      | (_, _, some qErr) => ⟨none, some qErr, cache, lookupOnly⟩
      | (true, cachedItems, none) =>
        match cachedItems with
        | x :: _ => ⟨some x, none, cache, lookupOnly⟩
        | [] => ⟨none, none, cache, lookupOnly⟩
      | (false, _, none) =>
        match s.InputMapperGet scope query with
        | .error e =>
            let e := WrapAWSError e
            ⟨none, some e, storeError cache ck e, ⟨1, 0, 0, 0, 1⟩⟩
        | .ok input =>
          match s.DescribeFunc input with
          | .error e =>
              let e := WrapAWSError e
              ⟨none, some e, storeError cache ck e, ⟨1, 1, 0, 0, 1⟩⟩
          | .ok output =>
            match s.OutputMapper scope input output with
            | .error e =>
                let e := WrapAWSError e
                ⟨none, some e, storeError cache ck e, ⟨1, 1, 0, 0, 1⟩⟩
            | .ok mapped =>
              match (if s.UseListForGet then filterForGet mapped query
                     else mapped) with
              | [] =>
                  let e := notFoundError s query
                  ⟨none, some e, storeError cache ck e, ⟨1, 1, 0, 0, 1⟩⟩
              | [x] => ⟨some x, none, storeItem cache ck x, ⟨1, 1, 0, 1, 0⟩⟩
              | x :: y :: rest =>
                  let e := ambiguousGetError (x :: y :: rest)
                  ⟨none, some e, storeError cache ck e, ⟨1, 1, 0, 0, 1⟩⟩

/-- The `describe` routine: with a `PaginatorBuilder`, loop
`HasMorePages` → `NextPage` → `OutputMapper` → accumulate (an error from
`NextPage` or the mapper aborts with that error and no items); without
one, a single `DescribeFunc` call followed by the mapper.  Returns the
result together with the `NextPage` count and the `DescribeFunc` count. -/
def drainPaginator {Input Output : Type}
    (s : DescribeOnlySource Input Output) (scope : String) (input : Input) :
    List (Except GoErr Output) → List Item → Nat →
      Except GoErr (List Item) × Nat
  | [], acc, n => (.ok acc, n)
  | page :: rest, acc, n =>
    match page with
    | .error e => (.error e, n + 1)
    | .ok output =>
      match s.OutputMapper scope input output with
      | .error e => (.error e, n + 1)
      | .ok newItems => drainPaginator s scope input rest (acc ++ newItems) (n + 1)

/-- See `drainPaginator`; translated from `describe` in
`describe_source.go`. -/
def DescribeOnlySource.describe {Input Output : Type}
    (s : DescribeOnlySource Input Output) (input : Input) (scope : String) :
    Except GoErr (List Item) × Nat × Nat :=
  match s.PaginatorBuilder with
  | some builder =>
      match drainPaginator s scope input (builder input) [] 0 with
      | (res, np) => (res, np, 0)
  | none =>
    match s.DescribeFunc input with
    | .error e => (.error e, 0, 1)
    | .ok output =>
      match s.OutputMapper scope input output with
      | .error e => (.error e, 0, 1)
      | .ok items => (.ok items, 0, 1)

/-- `List` translated from `describe_source.go`: scope check, fail fast
with a NOTFOUND `list is not supported for %v resources` error when
`InputMapperList` is nil, `Validate`, cache lookup (a hit returns the
cached items, a cached error is returned as-is); on a miss:
`InputMapperList`, the `describe` routine (errors wrapped and stored),
then every returned item is stored one by one. -/
def DescribeOnlySource.list {Input Output : Type}
    (s : DescribeOnlySource Input Output) (cache : Cache)
    (scope : String) (ignoreCache : Bool) : ListOutcome :=
  if scope ≠ FormatScope s.AccountID s.Region then
    ⟨[], some (noScopeError s scope), cache, noEffects⟩
  else
    match s.InputMapperList with
    | none =>
        ⟨[], some (.query ⟨.NOTFOUND,
          "list is not supported for " ++ s.ItemType ++ " resources", ""⟩),
          cache, noEffects⟩
    | some mapper =>
      match s.validate with
      | some e => ⟨[], some (WrapAWSError e), cache, noEffects⟩
      | none =>
        let ck : CacheKey := ⟨s.name, .LIST, scope, s.ItemType, ""⟩
        match cacheLookup cache ck ignoreCache with
        | (_, _, some qErr) => ⟨[], some qErr, cache, lookupOnly⟩
        | (true, cachedItems, none) => ⟨cachedItems, none, cache, lookupOnly⟩
        | (false, _, none) =>
          match mapper scope with
          | .error e =>
              let e := WrapAWSError e
              ⟨[], some e, storeError cache ck e, ⟨1, 0, 0, 0, 1⟩⟩
          | .ok input =>
            match s.describe input scope with
            | (.error e, np, dc) =>
                let e := WrapAWSError e
                ⟨[], some e, storeError cache ck e, ⟨1, dc, np, 0, 1⟩⟩
            | (.ok items, np, dc) =>
                ⟨items, none, storeAll cache ck items,
                  ⟨1, dc, np, items.length, 0⟩⟩

/-- `searchARN`, the default Search path: parse the query as an ARN (a
parse failure is returned wrapped), require the scope formed from the
ARN's account and region to equal the requested scope (else NOSCOPE,
carrying the scope), then delegate to `Get` with the ARN's resource-id
portion; a `Get` error is returned wrapped, a `Get` item is returned as
a single-element list.  (When `Get` returns nil item with nil error the
Go code returns a one-element slice holding a nil pointer; item lists in
this embedding hold values, so that slice is rendered empty.) -/
def DescribeOnlySource.searchARN {Input Output : Type}
    (s : DescribeOnlySource Input Output) (cache : Cache)
    (scope query : String) (ignoreCache : Bool) : ListOutcome :=
  match ParseARN query with
  | .error e => ⟨[], some (WrapAWSError e), cache, noEffects⟩
  | .ok a =>
    if FormatScope a.arnAccountID a.arnRegion ≠ scope then
      ⟨[], some (.query ⟨.NOSCOPE,
        "ARN scope " ++ FormatScope a.arnAccountID a.arnRegion
          ++ " does not match request scope " ++ scope, scope⟩),
        cache, noEffects⟩
    else
      let r := s.Get cache scope a.resourceID ignoreCache
      match r.err with
      | some e => ⟨[], some (WrapAWSError e), r.cache, r.eff⟩
      | none =>
        match r.item with
        | some it => ⟨[it], none, r.cache, r.eff⟩
        | none => ⟨[], none, r.cache, r.eff⟩

/-- `searchCustom`: run `InputMapperSearch` (its error is returned wrapped
and NOT stored in the cache), then the `describe` routine (errors wrapped
and stored under the search cache key), then store every item under the
search cache key.  No cache lookup happens on this path.  `Search` only
reaches this routine when `InputMapperSearch` is set; the mapper is
therefore passed in explicitly. -/
def DescribeOnlySource.searchCustom {Input Output : Type}
    (s : DescribeOnlySource Input Output) (cache : Cache)
    (scope query : String) (ck : CacheKey)
    (mapper : String → String → Except GoErr Input) : ListOutcome :=
  match mapper scope query with
  | .error e => ⟨[], some (WrapAWSError e), cache, noEffects⟩
  | .ok input =>
    match s.describe input scope with
    | (.error e, np, dc) =>
        let e := WrapAWSError e
        ⟨[], some e, storeError cache ck e, ⟨0, dc, np, 0, 1⟩⟩
    | (.ok items, np, dc) =>
        ⟨items, none, storeAll cache ck items, ⟨0, dc, np, items.length, 0⟩⟩

/-- `Search` translated from `describe_source.go`: scope check, build the
SEARCH cache key, then dispatch to `searchARN` when no
`InputMapperSearch` was supplied and to `searchCustom` otherwise. -/
def DescribeOnlySource.Search {Input Output : Type}
    (s : DescribeOnlySource Input Output) (cache : Cache)
    (scope query : String) (ignoreCache : Bool) : ListOutcome :=
  if scope ≠ FormatScope s.AccountID s.Region then
    ⟨[], some (noScopeError s scope), cache, noEffects⟩
  else
    let ck : CacheKey := ⟨s.name, .SEARCH, scope, s.ItemType, query⟩
    match s.InputMapperSearch with
    | none => s.searchARN cache scope query ignoreCache
    | some mapper => s.searchCustom cache scope query ck mapper

/-- The GET cache key of a source for a query, at the source's own scope. -/
def getKey {Input Output : Type} (s : DescribeOnlySource Input Output)
    (query : String) : CacheKey :=
  ⟨s.name, .GET, FormatScope s.AccountID s.Region, s.ItemType, query⟩

/-- The LIST cache key of a source, at the source's own scope. -/
def listKey {Input Output : Type}
    (s : DescribeOnlySource Input Output) : CacheKey :=
  ⟨s.name, .LIST, FormatScope s.AccountID s.Region, s.ItemType, ""⟩

/-- The SEARCH cache key of a source for a query, at the source's own
scope. -/
def searchKey {Input Output : Type} (s : DescribeOnlySource Input Output)
    (query : String) : CacheKey :=
  ⟨s.name, .SEARCH, FormatScope s.AccountID s.Region, s.ItemType, query⟩

/-! ### Concrete sources used by the witnesses -/

/-- A concrete item of the ec2-subnet kind used by the witnesses. -/
def subnetItem (n : String) : Item :=
  ⟨"ec2-subnet", "111111111111.region", n⟩

/-- A concrete source whose describe yields no items. -/
def wSrcEmpty : DescribeOnlySource Unit Unit :=
  ⟨"ec2-subnet", "111111111111", "region", false,
    fun _ => .ok (), fun _ _ => .ok (), some (fun _ => .ok ()), none, none,
    fun _ _ _ => .ok []⟩

/-- A concrete source whose describe yields two items (an ambiguous Get). -/
def wSrcTwo : DescribeOnlySource Unit Unit :=
  ⟨"ec2-subnet", "111111111111", "region", false,
    fun _ => .ok (), fun _ _ => .ok (), some (fun _ => .ok ()), none, none,
    fun _ _ _ => .ok [subnetItem "a", subnetItem "b"]⟩

/-- A concrete source whose describe yields exactly the item `abc`. -/
def wSrcOne : DescribeOnlySource Unit Unit :=
  ⟨"ec2-subnet", "111111111111", "region", false,
    fun _ => .ok (), fun _ _ => .ok (), some (fun _ => .ok ()), none, none,
    fun _ _ _ => .ok [subnetItem "abc"]⟩

/-- A concrete `UseListForGet` source whose describe yields the three items
`id-1`, `id-2`, `id-3` (the spec's §8 example). -/
def wSrcFilter : DescribeOnlySource Unit Unit :=
  ⟨"ec2-subnet", "111111111111", "region", true,
    fun _ => .ok (), fun _ _ => .ok (), some (fun _ => .ok ()), none, none,
    fun _ _ _ => .ok [subnetItem "id-1", subnetItem "id-2", subnetItem "id-3"]⟩

/-- A concrete source whose describe call fails with the
context-cancellation error. -/
def wSrcCanceled : DescribeOnlySource Unit Unit :=
  ⟨"ec2-subnet", "111111111111", "region", false,
    fun _ => .error .canceled, fun _ _ => .ok (), some (fun _ => .ok ()),
    none, none, fun _ _ _ => .ok [subnetItem "abc"]⟩

/-- A concrete custom-search source whose describe call fails with the
context-cancellation error. -/
def wSrcCanceledSearch : DescribeOnlySource Unit Unit :=
  ⟨"ec2-subnet", "111111111111", "region", false,
    fun _ => .error .canceled, fun _ _ => .ok (), some (fun _ => .ok ()),
    some (fun _ _ => .ok ()), none, fun _ _ _ => .ok [subnetItem "abc"]⟩

/-- Pages yielded by the concrete paginator: 3 pages of 2/2/1 items. -/
def wPages : List (Except GoErr (List String)) :=
  [.ok ["a", "b"], .ok ["c", "d"], .ok ["e"]]

/-- Pages whose second `NextPage` call fails. -/
def wPagesErr : List (Except GoErr (List String)) :=
  [.ok ["a", "b"], .error (.plain "page 2 failed"), .ok ["e"]]

/-- A concrete paginated source: 3 pages of 2/2/1 items. -/
def wSrcPaginated : DescribeOnlySource Unit (List String) :=
  ⟨"ec2-subnet", "111111111111", "region", false,
    fun _ => .ok [], fun _ _ => .ok (), some (fun _ => .ok ()), none,
    some (fun _ => wPages),
    fun _ _ out => .ok (out.map subnetItem)⟩

/-- A concrete paginated source whose second page errors. -/
def wSrcPaginatedErr : DescribeOnlySource Unit (List String) :=
  ⟨"ec2-subnet", "111111111111", "region", false,
    fun _ => .ok [], fun _ _ => .ok (), some (fun _ => .ok ()), none,
    some (fun _ => wPagesErr),
    fun _ _ out => .ok (out.map subnetItem)⟩

/-- A concrete source with a custom search mapper. -/
def wSrcCustomSearch : DescribeOnlySource Unit Unit :=
  ⟨"ec2-subnet", "111111111111", "region", false,
    fun _ => .ok (), fun _ _ => .ok (), some (fun _ => .ok ()),
    some (fun _ _ => .ok ()), none,
    fun _ _ _ => .ok [subnetItem "abc"]⟩

/-- A concrete source whose custom search mapper itself errors. -/
def wSrcCustomSearchErr : DescribeOnlySource Unit Unit :=
  ⟨"ec2-subnet", "111111111111", "region", false,
    fun _ => .ok (), fun _ _ => .ok (), some (fun _ => .ok ()),
    some (fun _ _ => .error (.plain "bad search query")), none,
    fun _ _ _ => .ok [subnetItem "abc"]⟩

/-- A concrete source with no `InputMapperList` (list unsupported). -/
def wSrcNoList : DescribeOnlySource Unit Unit :=
  ⟨"ec2-subnet", "111111111111", "region", false,
    fun _ => .ok (), fun _ _ => .ok (), none, none, none,
    fun _ _ _ => .ok [subnetItem "abc"]⟩

/-- The scope of all the concrete sources above. -/
def wScope : String := "111111111111.region"

/-! ### Cache lemmas -/

theorem entryAt_storeError (c : Cache) (ck : CacheKey) (e : GoErr) :
    entryAt (storeError c ck e) ck = some (.err e) := by
  simp [entryAt, storeError]

theorem entryAt_storeItem (c : Cache) (ck : CacheKey) (i : Item) :
    entryAt (storeItem c ck i) ck = some (.items (itemsAt c ck ++ [i])) := by
  simp [entryAt, storeItem]

theorem itemsAt_storeItem (c : Cache) (ck : CacheKey) (i : Item) :
    itemsAt (storeItem c ck i) ck = itemsAt c ck ++ [i] := by
  simp [itemsAt, entryAt_storeItem]

theorem entryAt_storeAll_cons (c : Cache) (ck : CacheKey) (x : Item)
    (l : List Item) :
    entryAt (storeAll c ck (x :: l)) ck
      = some (.items (itemsAt c ck ++ x :: l)) := by
  induction l generalizing c x with
  | nil => simp [storeAll, entryAt_storeItem]
  | cons y l ih =>
      show entryAt (storeAll (storeItem c ck x) ck (y :: l)) ck = _
      rw [ih, itemsAt_storeItem]
      simp

theorem cacheLookup_miss (c : Cache) (ck : CacheKey)
    (h : entryAt c ck = none) :
    cacheLookup c ck false = (false, [], none) := by
  simp [cacheLookup, h]

theorem cacheLookup_err (c : Cache) (ck : CacheKey) (e : GoErr)
    (h : entryAt c ck = some (.err e)) :
    cacheLookup c ck false = (true, [], some e) := by
  simp [cacheLookup, h]

theorem cacheLookup_items (c : Cache) (ck : CacheKey) (xs : List Item)
    (h : entryAt c ck = some (.items xs)) :
    cacheLookup c ck false = (true, xs, none) := by
  simp [cacheLookup, h]

/-! ### C2 -/

/-- C2: for every scope not equal to the source's single declared scope
`FormatScope(AccountID, Region)`, each of `Get`, `List` and `Search`
returns a NOSCOPE `QueryError` and performs no cache operation at all:
the cache is returned unchanged and the effect counters are all zero
(no `Lookup`, no `StoreItem`, no `StoreError`). -/
theorem scope_mismatch_noscope_no_cache {Input Output : Type}
    (s : DescribeOnlySource Input Output) (cache : Cache)
    (scope query : String) (ignoreCache : Bool)
    (h : scope ≠ FormatScope s.AccountID s.Region) :
    goErrKind (noScopeError s scope) = some .NOSCOPE
      ∧ s.Get cache scope query ignoreCache
        = ⟨none, some (noScopeError s scope), cache, noEffects⟩
      ∧ s.list cache scope ignoreCache
        = ⟨[], some (noScopeError s scope), cache, noEffects⟩
      ∧ s.Search cache scope query ignoreCache
        = ⟨[], some (noScopeError s scope), cache, noEffects⟩ := by
  refine ⟨rfl, ?_, ?_, ?_⟩ <;>
    simp [DescribeOnlySource.Get, DescribeOnlySource.list,
      DescribeOnlySource.Search, h]

/-- Witness for C2: the concrete subnet source queried with the foreign
scope `foo.bar`. -/
theorem scope_mismatch_noscope_no_cache_witness :
    ("foo.bar" ≠ FormatScope wSrcEmpty.AccountID wSrcEmpty.Region)
      ∧ (goErrKind (noScopeError wSrcEmpty "foo.bar") = some .NOSCOPE
        ∧ wSrcEmpty.Get [] "foo.bar" "abc" false
          = ⟨none, some (noScopeError wSrcEmpty "foo.bar"), [], noEffects⟩
        ∧ wSrcEmpty.list [] "foo.bar" false
          = ⟨[], some (noScopeError wSrcEmpty "foo.bar"), [], noEffects⟩
        ∧ wSrcEmpty.Search [] "foo.bar" "abc" false
          = ⟨[], some (noScopeError wSrcEmpty "foo.bar"), [], noEffects⟩) :=
  ⟨by decide,
    scope_mismatch_noscope_no_cache wSrcEmpty [] "foo.bar" "abc" false
      (by decide)⟩

/-! ### C10 -/

/-- C10: on a `Get` call whose cache lookup reports a hit holding an empty
item list, `Get` returns a nil item together with a nil error — the caller
receives neither an item nor a structured error. -/
theorem get_cache_hit_empty_returns_nil_nil {Input Output : Type}
    (s : DescribeOnlySource Input Output) (cache : Cache) (query : String)
    (h : entryAt cache
        ⟨s.name, .GET, FormatScope s.AccountID s.Region, s.ItemType, query⟩
      = some (.items [])) :
    s.Get cache (FormatScope s.AccountID s.Region) query false
      = ⟨none, none, cache, lookupOnly⟩ := by
  have hck := cacheLookup_items _ _ _ h
  simp [DescribeOnlySource.Get, DescribeOnlySource.validate, hck]

/-- Witness for C10: a cache holding an empty item list under the concrete
GET key. -/
theorem get_cache_hit_empty_returns_nil_nil_witness :
    (entryAt [(⟨wSrcOne.name, .GET, FormatScope wSrcOne.AccountID
          wSrcOne.Region, wSrcOne.ItemType, "abc"⟩, .items [])]
        ⟨wSrcOne.name, .GET, FormatScope wSrcOne.AccountID wSrcOne.Region,
          wSrcOne.ItemType, "abc"⟩
      = some (.items []))
    ∧ wSrcOne.Get
        [(⟨wSrcOne.name, .GET, FormatScope wSrcOne.AccountID wSrcOne.Region,
            wSrcOne.ItemType, "abc"⟩, .items [])]
        (FormatScope wSrcOne.AccountID wSrcOne.Region) "abc" false
      = ⟨none, none,
          [(⟨wSrcOne.name, .GET, FormatScope wSrcOne.AccountID wSrcOne.Region,
              wSrcOne.ItemType, "abc"⟩, .items [])], lookupOnly⟩ :=
  ⟨by decide, get_cache_hit_empty_returns_nil_nil wSrcOne _ "abc" (by decide)⟩

/-! ### C6 -/

/-- C6 counterexample: on the concrete source with no `InputMapperList`,
the error returned by `List` is of the NOTFOUND kind, not of the distinct
Unsupported kind the claim names. -/
theorem list_no_mapper_kind_cex :
    goErrKind ((wSrcNoList.list [] wScope false).err.getD (.plain ""))
        = some .NOTFOUND
      ∧ ¬ goErrKind ((wSrcNoList.list [] wScope false).err.getD (.plain ""))
        = some .NOTSUPPORTED := by decide

/-- C6 (amended): `List` on a source whose `InputMapperList` is nil fails
fast with a NOTFOUND-kind `QueryError` stating that list is not supported
for the source's resource type, before any cache lookup or upstream call
(cache unchanged, all effect counters zero). -/
theorem list_without_mapper_fails_fast {Input Output : Type}
    (s : DescribeOnlySource Input Output) (cache : Cache)
    (ignoreCache : Bool) (h : s.InputMapperList = none) :
    s.list cache (FormatScope s.AccountID s.Region) ignoreCache
      = ⟨[], some (.query ⟨.NOTFOUND,
          "list is not supported for " ++ s.ItemType ++ " resources", ""⟩),
        cache, noEffects⟩ := by
  simp [DescribeOnlySource.list, h]

/-- Witness for C6 at the concrete source with no list mapper. -/
theorem list_without_mapper_fails_fast_witness :
    wSrcNoList.InputMapperList = none
      ∧ wSrcNoList.list [] (FormatScope wSrcNoList.AccountID wSrcNoList.Region)
          false
        = ⟨[], some (.query ⟨.NOTFOUND,
            "list is not supported for " ++ wSrcNoList.ItemType
              ++ " resources", ""⟩), [], noEffects⟩ :=
  ⟨rfl, list_without_mapper_fails_fast wSrcNoList [] false rfl⟩

/-! ### C1 -/

/-- C1: on a `Get` cache miss where the mapped (and, when `UseListForGet`
is set, filtered) item list is empty, `Get` returns the NOTFOUND
`QueryError`; where that list holds more than one item, `Get` returns the
OTHER `QueryError` whose message enumerates the globally unique names of
all found items.  In both cases the error is stored in the cache under the
GET key, and an immediately repeated `Get` with the same query and
`ignoreCache = false` returns the same cached error with the cache
untouched and no second `DescribeFunc` call (`lookupOnly` effects). -/
theorem get_zero_or_many_cached_error {Input Output : Type}
    (s : DescribeOnlySource Input Output) (cache : Cache) (query : String)
    (input : Input) (output : Output) (mapped : List Item)
    (hmiss : entryAt cache (getKey s query) = none)
    (hin : s.InputMapperGet (FormatScope s.AccountID s.Region) query
      = .ok input)
    (hdesc : s.DescribeFunc input = .ok output)
    (hout : s.OutputMapper (FormatScope s.AccountID s.Region) input output
      = .ok mapped) :
    ((if s.UseListForGet then filterForGet mapped query else mapped) = [] →
      s.Get cache (FormatScope s.AccountID s.Region) query false
          = ⟨none, some (notFoundError s query),
              storeError cache (getKey s query) (notFoundError s query),
              ⟨1, 1, 0, 0, 1⟩⟩
        ∧ s.Get (storeError cache (getKey s query) (notFoundError s query))
            (FormatScope s.AccountID s.Region) query false
          = ⟨none, some (notFoundError s query),
              storeError cache (getKey s query) (notFoundError s query),
              lookupOnly⟩)
    ∧ (∀ x y rest,
        (if s.UseListForGet then filterForGet mapped query else mapped)
          = x :: y :: rest →
        s.Get cache (FormatScope s.AccountID s.Region) query false
            = ⟨none, some (ambiguousGetError (x :: y :: rest)),
                storeError cache (getKey s query)
                  (ambiguousGetError (x :: y :: rest)), ⟨1, 1, 0, 0, 1⟩⟩
          ∧ s.Get (storeError cache (getKey s query)
                (ambiguousGetError (x :: y :: rest)))
              (FormatScope s.AccountID s.Region) query false
            = ⟨none, some (ambiguousGetError (x :: y :: rest)),
                storeError cache (getKey s query)
                  (ambiguousGetError (x :: y :: rest)), lookupOnly⟩) := by
  simp only [getKey] at hmiss ⊢
  have hck := cacheLookup_miss _ _ hmiss
  constructor
  · intro h0
    have hck2 := cacheLookup_err _ _ _ (entryAt_storeError cache
      ⟨s.name, .GET, FormatScope s.AccountID s.Region, s.ItemType, query⟩
      (notFoundError s query))
    refine ⟨?_, ?_⟩ <;>
      simp [DescribeOnlySource.Get, DescribeOnlySource.validate, hck, hck2,
        hin, hdesc, hout, h0]
  · intro x y rest h2
    have hck2 := cacheLookup_err _ _ _ (entryAt_storeError cache
      ⟨s.name, .GET, FormatScope s.AccountID s.Region, s.ItemType, query⟩
      (ambiguousGetError (x :: y :: rest)))
    refine ⟨?_, ?_⟩ <;>
      simp [DescribeOnlySource.Get, DescribeOnlySource.validate, hck, hck2,
        hin, hdesc, hout, h2]

/-- Witness for C1: the zero-item source returns the cached NOTFOUND error
on the repeated call, the two-item source the cached ambiguous error. -/
theorem get_zero_or_many_cached_error_witness :
    (entryAt [] (getKey wSrcEmpty "abc") = none
      ∧ wSrcEmpty.Get []
          (FormatScope wSrcEmpty.AccountID wSrcEmpty.Region) "abc" false
        = ⟨none, some (notFoundError wSrcEmpty "abc"),
            storeError [] (getKey wSrcEmpty "abc")
              (notFoundError wSrcEmpty "abc"), ⟨1, 1, 0, 0, 1⟩⟩
      ∧ wSrcEmpty.Get
          (storeError [] (getKey wSrcEmpty "abc")
            (notFoundError wSrcEmpty "abc"))
          (FormatScope wSrcEmpty.AccountID wSrcEmpty.Region) "abc" false
        = ⟨none, some (notFoundError wSrcEmpty "abc"),
            storeError [] (getKey wSrcEmpty "abc")
              (notFoundError wSrcEmpty "abc"), lookupOnly⟩)
    ∧ (wSrcTwo.Get []
          (FormatScope wSrcTwo.AccountID wSrcTwo.Region) "abc" false
        = ⟨none,
            some (ambiguousGetError [subnetItem "a", subnetItem "b"]),
            storeError [] (getKey wSrcTwo "abc")
              (ambiguousGetError [subnetItem "a", subnetItem "b"]),
            ⟨1, 1, 0, 0, 1⟩⟩
      ∧ wSrcTwo.Get
          (storeError [] (getKey wSrcTwo "abc")
            (ambiguousGetError [subnetItem "a", subnetItem "b"]))
          (FormatScope wSrcTwo.AccountID wSrcTwo.Region) "abc" false
        = ⟨none,
            some (ambiguousGetError [subnetItem "a", subnetItem "b"]),
            storeError [] (getKey wSrcTwo "abc")
              (ambiguousGetError [subnetItem "a", subnetItem "b"]),
            lookupOnly⟩) :=
  ⟨⟨by decide,
    (get_zero_or_many_cached_error wSrcEmpty [] "abc" () () []
      (by decide) rfl rfl rfl).1 rfl⟩,
    (get_zero_or_many_cached_error wSrcTwo [] "abc" () ()
      [subnetItem "a", subnetItem "b"] (by decide) rfl rfl rfl).2
      (subnetItem "a") (subnetItem "b") [] rfl⟩

/-! ### C5 -/

/-- C5 counterexample: at the concrete sources whose `DescribeFunc` fails
with the context-cancellation error, `Get`, `List` and `Search` (both the
custom-mapper path and the ARN-delegated default path) each invoke
`StoreError` once (the claim says no cache write happens), storing the
wrapped context-derived error. -/
theorem canceled_describe_cache_write_cex :
    (wSrcCanceled.Get []
        (FormatScope wSrcCanceled.AccountID wSrcCanceled.Region)
        "abc" false).eff.storeErrors = 1
      ∧ (wSrcCanceled.Get []
          (FormatScope wSrcCanceled.AccountID wSrcCanceled.Region)
          "abc" false).err = some (WrapAWSError .canceled)
      ∧ ¬ (wSrcCanceled.Get []
          (FormatScope wSrcCanceled.AccountID wSrcCanceled.Region)
          "abc" false).cache = []
      ∧ (wSrcCanceled.list []
          (FormatScope wSrcCanceled.AccountID wSrcCanceled.Region)
          false).eff.storeErrors = 1
      ∧ (wSrcCanceledSearch.Search []
          (FormatScope wSrcCanceledSearch.AccountID
            wSrcCanceledSearch.Region) "q" false).eff.storeErrors = 1
      ∧ (wSrcCanceled.Search []
          (FormatScope wSrcCanceled.AccountID wSrcCanceled.Region)
          "arn:aws:service:region:111111111111:resource/abc"
          false).eff.storeErrors = 1 := by decide

/-- C5 (amended): when `DescribeFunc` fails with the context-cancellation
error on a cache miss, each of `Get`, `List` and `Search` returns the
wrapped context-derived error, and — contrary to the claim — that error IS
written to the cache through `StoreError` (exactly one stored error, no
stored item), exactly like any other describe error: under the GET key for
`Get` and for the ARN-delegated default `Search`, under the LIST key for
`List`, and under the SEARCH key for a custom-mapper `Search`. -/
theorem canceled_describe_error_is_stored {Input Output : Type}
    (s : DescribeOnlySource Input Output) (cache : Cache) (query : String)
    (input : Input) (mapper : String → Except GoErr Input)
    (hmissG : entryAt cache (getKey s query) = none)
    (hmissL : entryAt cache (listKey s) = none)
    (hinG : s.InputMapperGet (FormatScope s.AccountID s.Region) query
      = .ok input)
    (hlist : s.InputMapperList = some mapper)
    (hinL : mapper (FormatScope s.AccountID s.Region) = .ok input)
    (hnp : s.PaginatorBuilder = none)
    (hcanc : s.DescribeFunc input = .error .canceled) :
    s.Get cache (FormatScope s.AccountID s.Region) query false
        = ⟨none, some (WrapAWSError .canceled),
            storeError cache (getKey s query) (WrapAWSError .canceled),
            ⟨1, 1, 0, 0, 1⟩⟩
      ∧ s.list cache (FormatScope s.AccountID s.Region) false
        = ⟨[], some (WrapAWSError .canceled),
            storeError cache (listKey s) (WrapAWSError .canceled),
            ⟨1, 1, 0, 0, 1⟩⟩
      ∧ (∀ mapperS : String → String → Except GoErr Input,
          s.InputMapperSearch = some mapperS →
          mapperS (FormatScope s.AccountID s.Region) query = .ok input →
          s.Search cache (FormatScope s.AccountID s.Region) query false
            = ⟨[], some (WrapAWSError .canceled),
                storeError cache (searchKey s query)
                  (WrapAWSError .canceled), ⟨0, 1, 0, 0, 1⟩⟩)
      ∧ (s.InputMapperSearch = none →
          ∀ a, ParseARN query = .ok a →
          FormatScope a.arnAccountID a.arnRegion
              = FormatScope s.AccountID s.Region →
          entryAt cache (getKey s a.resourceID) = none →
          s.InputMapperGet (FormatScope s.AccountID s.Region) a.resourceID
              = .ok input →
          s.Search cache (FormatScope s.AccountID s.Region) query false
            = ⟨[], some (WrapAWSError .canceled),
                storeError cache (getKey s a.resourceID)
                  (WrapAWSError .canceled), ⟨1, 1, 0, 0, 1⟩⟩) := by
  simp only [getKey, listKey, searchKey] at hmissG hmissL ⊢
  have hckG := cacheLookup_miss _ _ hmissG
  have hckL := cacheLookup_miss _ _ hmissL
  refine ⟨?_, ?_, ?_, ?_⟩
  · simp [DescribeOnlySource.Get, DescribeOnlySource.validate, hckG, hinG,
      hcanc]
  · simp [DescribeOnlySource.list, DescribeOnlySource.validate,
      DescribeOnlySource.describe, hckL, hlist, hinL, hnp, hcanc]
  · intro mapperS hm hinS
    simp [DescribeOnlySource.Search, DescribeOnlySource.searchCustom,
      DescribeOnlySource.describe, hm, hinS, hnp, hcanc]
  · intro hm a hp hsc hmissG2 hinG2
    have hckG2 := cacheLookup_miss _ _ hmissG2
    have hget : s.Get cache (FormatScope s.AccountID s.Region) a.resourceID
        false
      = ⟨none, some (WrapAWSError .canceled),
          storeError cache
            ⟨s.name, .GET, FormatScope s.AccountID s.Region, s.ItemType,
              a.resourceID⟩ (WrapAWSError .canceled), ⟨1, 1, 0, 0, 1⟩⟩ := by
      simp [DescribeOnlySource.Get, DescribeOnlySource.validate, hckG2,
        hinG2, hcanc]
    simp [DescribeOnlySource.Search, DescribeOnlySource.searchARN, hm, hp,
      hsc, hget, WrapAWSError]

/-- Witness for C5 (amended) at the concrete cancelled sources: `Get`,
`List`, a custom-mapper `Search` and the ARN-delegated default `Search`
each store the wrapped cancellation error. -/
theorem canceled_describe_error_is_stored_witness :
    (entryAt [] (getKey wSrcCanceled "abc") = none
      ∧ entryAt [] (listKey wSrcCanceled) = none
      ∧ wSrcCanceled.DescribeFunc () = .error .canceled
      ∧ wSrcCanceledSearch.DescribeFunc () = .error .canceled)
    ∧ (wSrcCanceled.Get []
          (FormatScope wSrcCanceled.AccountID wSrcCanceled.Region)
          "abc" false
        = ⟨none, some (WrapAWSError .canceled),
            storeError [] (getKey wSrcCanceled "abc")
              (WrapAWSError .canceled), ⟨1, 1, 0, 0, 1⟩⟩
      ∧ wSrcCanceled.list []
          (FormatScope wSrcCanceled.AccountID wSrcCanceled.Region) false
        = ⟨[], some (WrapAWSError .canceled),
            storeError [] (listKey wSrcCanceled) (WrapAWSError .canceled),
            ⟨1, 1, 0, 0, 1⟩⟩
      ∧ wSrcCanceledSearch.Search []
          (FormatScope wSrcCanceledSearch.AccountID
            wSrcCanceledSearch.Region) "q" false
        = ⟨[], some (WrapAWSError .canceled),
            storeError [] (searchKey wSrcCanceledSearch "q")
              (WrapAWSError .canceled), ⟨0, 1, 0, 0, 1⟩⟩
      ∧ wSrcCanceled.Search []
          (FormatScope wSrcCanceled.AccountID wSrcCanceled.Region)
          "arn:aws:service:region:111111111111:resource/abc" false
        = ⟨[], some (WrapAWSError .canceled),
            storeError [] (getKey wSrcCanceled "abc")
              (WrapAWSError .canceled), ⟨1, 1, 0, 0, 1⟩⟩) :=
  ⟨⟨by decide, by decide, rfl, rfl⟩,
    (canceled_describe_error_is_stored wSrcCanceled [] "abc" ()
      (fun _ => .ok ()) (by decide) (by decide) rfl rfl rfl rfl rfl).1,
    (canceled_describe_error_is_stored wSrcCanceled [] "abc" ()
      (fun _ => .ok ()) (by decide) (by decide) rfl rfl rfl rfl rfl).2.1,
    (canceled_describe_error_is_stored wSrcCanceledSearch [] "q" ()
      (fun _ => .ok ()) (by decide) (by decide) rfl rfl rfl rfl
      rfl).2.2.1 (fun _ _ => .ok ()) rfl rfl,
    (canceled_describe_error_is_stored wSrcCanceled []
      "arn:aws:service:region:111111111111:resource/abc" ()
      (fun _ => .ok ()) (by decide) (by decide) rfl rfl rfl rfl
      rfl).2.2.2 rfl
      ⟨"aws", "service", "region", "111111111111", "resource/abc"⟩
      rfl rfl (by decide) rfl⟩

/-! ### C7 -/

/-- C7 counterexample: at the concrete source whose describe yields zero
items, the first `List` call succeeds with an empty item set but stores
nothing (the store loop runs zero times), so the immediately following
`List` call misses the cache and invokes `DescribeFunc` again — the claim
says no second upstream call happens. -/
theorem list_empty_result_refetches_cex :
    (wSrcEmpty.list []
        (FormatScope wSrcEmpty.AccountID wSrcEmpty.Region) false).items = []
      ∧ (wSrcEmpty.list []
          (FormatScope wSrcEmpty.AccountID wSrcEmpty.Region) false).err
        = none
      ∧ (wSrcEmpty.list []
          (FormatScope wSrcEmpty.AccountID wSrcEmpty.Region) false).cache
        = []
      ∧ (wSrcEmpty.list
          (wSrcEmpty.list []
            (FormatScope wSrcEmpty.AccountID wSrcEmpty.Region) false).cache
          (FormatScope wSrcEmpty.AccountID wSrcEmpty.Region)
          false).eff.describeCalls = 1 := by decide

/-- C7 (amended): two consecutive `List` calls with the source's scope and
`ignoreCache = false`, where the first misses the cache and the upstream
yields at least one item, return the identical item list, and the second
call is served entirely from the cache entry stored by the first: exactly
one lookup and no `DescribeFunc`, paginator or store call.  (When the
first call yields zero items nothing is stored and the second call hits
the upstream again — the counterexample above.) -/
theorem list_twice_nonempty_cached {Input Output : Type}
    (s : DescribeOnlySource Input Output) (cache : Cache)
    (mapper : String → Except GoErr Input) (input : Input)
    (xs : List Item) (np dc : Nat)
    (hmiss : entryAt cache (listKey s) = none)
    (hlist : s.InputMapperList = some mapper)
    (hin : mapper (FormatScope s.AccountID s.Region) = .ok input)
    (hdesc : s.describe input (FormatScope s.AccountID s.Region)
      = (.ok xs, np, dc))
    (hne : xs ≠ []) :
    s.list cache (FormatScope s.AccountID s.Region) false
        = ⟨xs, none, storeAll cache (listKey s) xs,
            ⟨1, dc, np, xs.length, 0⟩⟩
      ∧ s.list (storeAll cache (listKey s) xs)
          (FormatScope s.AccountID s.Region) false
        = ⟨xs, none, storeAll cache (listKey s) xs, lookupOnly⟩ := by
  obtain ⟨x, l, rfl⟩ : ∃ x l, xs = x :: l := by
    cases xs with
    | nil => exact absurd rfl hne
    | cons x l => exact ⟨x, l, rfl⟩
  simp only [listKey] at hmiss ⊢
  have hia : itemsAt cache
      ⟨s.name, .LIST, FormatScope s.AccountID s.Region, s.ItemType, ""⟩
      = [] := by
    simp [itemsAt, hmiss]
  have hst := entryAt_storeAll_cons cache
    ⟨s.name, .LIST, FormatScope s.AccountID s.Region, s.ItemType, ""⟩ x l
  rw [hia] at hst
  have hck := cacheLookup_miss _ _ hmiss
  have hck2 := cacheLookup_items _ _ _ hst
  constructor
  · simp [DescribeOnlySource.list, DescribeOnlySource.validate, hck, hlist,
      hin, hdesc]
  · simp [DescribeOnlySource.list, DescribeOnlySource.validate, hck2, hlist]

/-- Witness for C7 (amended) at the concrete single-item source. -/
theorem list_twice_nonempty_cached_witness :
    (entryAt [] (listKey wSrcOne) = none
      ∧ wSrcOne.describe () (FormatScope wSrcOne.AccountID wSrcOne.Region)
        = (.ok [subnetItem "abc"], 0, 1))
    ∧ (wSrcOne.list [] (FormatScope wSrcOne.AccountID wSrcOne.Region) false
        = ⟨[subnetItem "abc"], none,
            storeAll [] (listKey wSrcOne) [subnetItem "abc"],
            ⟨1, 1, 0, 1, 0⟩⟩
      ∧ wSrcOne.list (storeAll [] (listKey wSrcOne) [subnetItem "abc"])
          (FormatScope wSrcOne.AccountID wSrcOne.Region) false
        = ⟨[subnetItem "abc"], none,
            storeAll [] (listKey wSrcOne) [subnetItem "abc"], lookupOnly⟩) :=
  ⟨⟨by decide, rfl⟩,
    list_twice_nonempty_cached wSrcOne [] (fun _ => .ok ()) ()
      [subnetItem "abc"] 0 1 (by decide) rfl rfl rfl (by decide)⟩

/-! ### C9 -/

/-- The `UseListForGet` filter keeps at most one item: it is empty or the
singleton of the first item whose unique attribute equals the query. -/
theorem filterForGet_cases (l : List Item) (q : String) :
    filterForGet l q = []
      ∨ ∃ i, filterForGet l q = [i] ∧ i.uniqueAttributeValue = q := by
  induction l with
  | nil => exact Or.inl rfl
  | cons x rest ih =>
      by_cases hx : x.uniqueAttributeValue = q
      · exact Or.inr ⟨x, by simp [filterForGet, hx], hx⟩
      · simpa [filterForGet, hx] using ih

/-- C9: when `UseListForGet` is true the post-describe filter keeps at
most one item (the first whose unique attribute equals the query), so the
more-than-one-item ambiguous branch of `Get` is unreachable: on a cache
miss with successful mappers, `Get` returns either the single item whose
unique attribute equals the query, or the NOTFOUND error — every error it
returns on this path is of the NOTFOUND kind. -/
theorem use_list_for_get_never_ambiguous {Input Output : Type}
    (s : DescribeOnlySource Input Output) (cache : Cache) (query : String)
    (input : Input) (output : Output) (mapped : List Item)
    (hflag : s.UseListForGet = true)
    (hmiss : entryAt cache (getKey s query) = none)
    (hin : s.InputMapperGet (FormatScope s.AccountID s.Region) query
      = .ok input)
    (hdesc : s.DescribeFunc input = .ok output)
    (hout : s.OutputMapper (FormatScope s.AccountID s.Region) input output
      = .ok mapped) :
    ((filterForGet mapped query).length ≤ 1
      ∧ ∀ i ∈ filterForGet mapped query, i.uniqueAttributeValue = query)
    ∧ (filterForGet mapped query = [] →
        s.Get cache (FormatScope s.AccountID s.Region) query false
          = ⟨none, some (notFoundError s query),
              storeError cache (getKey s query) (notFoundError s query),
              ⟨1, 1, 0, 0, 1⟩⟩)
    ∧ (∀ i, filterForGet mapped query = [i] →
        i.uniqueAttributeValue = query
          ∧ s.Get cache (FormatScope s.AccountID s.Region) query false
            = ⟨some i, none, storeItem cache (getKey s query) i,
                ⟨1, 1, 0, 1, 0⟩⟩)
    ∧ (∀ e, (s.Get cache (FormatScope s.AccountID s.Region) query
          false).err = some e → goErrKind e = some .NOTFOUND) := by
  simp only [getKey] at hmiss ⊢
  have hck := cacheLookup_miss _ _ hmiss
  refine ⟨?_, ?_, ?_, ?_⟩
  · rcases filterForGet_cases mapped query with h | ⟨i, h, hiq⟩
    · simp [h]
    · simp [h, hiq]
  · intro h0
    simp [DescribeOnlySource.Get, DescribeOnlySource.validate, hck, hin,
      hdesc, hout, hflag, h0]
  · intro i h1
    have hiq : i.uniqueAttributeValue = query := by
      rcases filterForGet_cases mapped query with h | ⟨j, hj, hjq⟩
      · rw [h1] at h; exact absurd h (by simp)
      · rw [h1] at hj
        cases hj
        exact hjq
    refine ⟨hiq, ?_⟩
    simp [DescribeOnlySource.Get, DescribeOnlySource.validate, hck, hin,
      hdesc, hout, hflag, h1]
  · intro e he
    rcases filterForGet_cases mapped query with h | ⟨i, h, hiq⟩ <;>
      simp [DescribeOnlySource.Get, DescribeOnlySource.validate, hck, hin,
        hdesc, hout, hflag, h] at he
    rw [← he]
    rfl

/-- Witness for C9: the `UseListForGet` source with items id-1/id-2/id-3
queried for id-2 returns exactly the id-2 item. -/
theorem use_list_for_get_never_ambiguous_witness :
    (wSrcFilter.UseListForGet = true
      ∧ filterForGet
          [subnetItem "id-1", subnetItem "id-2", subnetItem "id-3"] "id-2"
        = [subnetItem "id-2"])
    ∧ ((subnetItem "id-2").uniqueAttributeValue = "id-2"
      ∧ wSrcFilter.Get []
          (FormatScope wSrcFilter.AccountID wSrcFilter.Region) "id-2" false
        = ⟨some (subnetItem "id-2"), none,
            storeItem [] (getKey wSrcFilter "id-2") (subnetItem "id-2"),
            ⟨1, 1, 0, 1, 0⟩⟩) :=
  ⟨⟨rfl, by decide⟩,
    (use_list_for_get_never_ambiguous wSrcFilter [] "id-2" () ()
        [subnetItem "id-1", subnetItem "id-2", subnetItem "id-3"]
        rfl (by decide) rfl rfl rfl).2.2.1 (subnetItem "id-2") (by decide)⟩

/-! ### C8 -/

/-- C8: `Search` on a source with a custom `InputMapperSearch` performs no
cache lookup: its returned items, error and effects are independent of the
cache contents and its lookup counter is zero.  An error from the mapper
itself is returned wrapped with the cache untouched; a describe error is
wrapped and stored under the SEARCH key; on success every item is stored
under the SEARCH key — entries written there are never read back. -/
theorem search_custom_never_reads_cache {Input Output : Type}
    (s : DescribeOnlySource Input Output) (c1 c2 : Cache)
    (query : String) (ignoreCache : Bool)
    (mapper : String → String → Except GoErr Input)
    (hm : s.InputMapperSearch = some mapper) :
    ((s.Search c1 (FormatScope s.AccountID s.Region) query
        ignoreCache).eff.lookups = 0)
    ∧ ((s.Search c1 (FormatScope s.AccountID s.Region) query
          ignoreCache).items
        = (s.Search c2 (FormatScope s.AccountID s.Region) query
            ignoreCache).items
      ∧ (s.Search c1 (FormatScope s.AccountID s.Region) query
          ignoreCache).err
        = (s.Search c2 (FormatScope s.AccountID s.Region) query
            ignoreCache).err
      ∧ (s.Search c1 (FormatScope s.AccountID s.Region) query
          ignoreCache).eff
        = (s.Search c2 (FormatScope s.AccountID s.Region) query
            ignoreCache).eff)
    ∧ (∀ e, mapper (FormatScope s.AccountID s.Region) query = .error e →
        s.Search c1 (FormatScope s.AccountID s.Region) query ignoreCache
          = ⟨[], some (WrapAWSError e), c1, noEffects⟩)
    ∧ (∀ input e np dc,
        mapper (FormatScope s.AccountID s.Region) query = .ok input →
        s.describe input (FormatScope s.AccountID s.Region)
          = (.error e, np, dc) →
        s.Search c1 (FormatScope s.AccountID s.Region) query ignoreCache
          = ⟨[], some (WrapAWSError e),
              storeError c1 (searchKey s query) (WrapAWSError e),
              ⟨0, dc, np, 0, 1⟩⟩)
    ∧ (∀ input xs np dc,
        mapper (FormatScope s.AccountID s.Region) query = .ok input →
        s.describe input (FormatScope s.AccountID s.Region)
          = (.ok xs, np, dc) →
        s.Search c1 (FormatScope s.AccountID s.Region) query ignoreCache
          = ⟨xs, none, storeAll c1 (searchKey s query) xs,
              ⟨0, dc, np, xs.length, 0⟩⟩) := by
  have heval : ∀ c : Cache,
      s.Search c (FormatScope s.AccountID s.Region) query ignoreCache
        = s.searchCustom c (FormatScope s.AccountID s.Region) query
            (searchKey s query) mapper := by
    intro c
    simp [DescribeOnlySource.Search, hm, searchKey]
  refine ⟨?_, ?_, ?_, ?_, ?_⟩
  · rw [heval]
    unfold DescribeOnlySource.searchCustom
    cases hmq : mapper (FormatScope s.AccountID s.Region) query with
    | error e => simp [noEffects]
    | ok input =>
      rcases hd : s.describe input (FormatScope s.AccountID s.Region)
        with ⟨res, np, dc⟩
      cases res <;> simp [hd]
  · rw [heval c1, heval c2]
    unfold DescribeOnlySource.searchCustom
    cases hmq : mapper (FormatScope s.AccountID s.Region) query with
    | error e => simp
    | ok input =>
      rcases hd : s.describe input (FormatScope s.AccountID s.Region)
        with ⟨res, np, dc⟩
      cases res <;> simp [hd]
  · intro e hmq
    rw [heval]
    simp [DescribeOnlySource.searchCustom, hmq]
  · intro input e np dc hmq hd
    rw [heval]
    simp [DescribeOnlySource.searchCustom, hmq, hd]
  · intro input xs np dc hmq hd
    rw [heval]
    simp [DescribeOnlySource.searchCustom, hmq, hd]

/-- Witness for C8 at the concrete custom-search sources: a success run
against two different caches (one already holding a SEARCH entry that is
ignored), and a mapper-error run that stores nothing. -/
theorem search_custom_never_reads_cache_witness :
    (wSrcCustomSearch.InputMapperSearch = some (fun _ _ => .ok ())
      ∧ wSrcCustomSearchErr.InputMapperSearch
        = some (fun _ _ => .error (.plain "bad search query")))
    ∧ ((wSrcCustomSearch.Search []
          (FormatScope wSrcCustomSearch.AccountID wSrcCustomSearch.Region)
          "q" false).eff.lookups = 0
      ∧ (wSrcCustomSearch.Search []
          (FormatScope wSrcCustomSearch.AccountID wSrcCustomSearch.Region)
          "q" false).items
        = (wSrcCustomSearch.Search
            [(searchKey wSrcCustomSearch "q", .items [subnetItem "stale"])]
            (FormatScope wSrcCustomSearch.AccountID wSrcCustomSearch.Region)
            "q" false).items
      ∧ wSrcCustomSearchErr.Search []
          (FormatScope wSrcCustomSearchErr.AccountID
            wSrcCustomSearchErr.Region) "q" false
        = ⟨[], some (WrapAWSError (.plain "bad search query")), [],
            noEffects⟩) :=
  ⟨⟨rfl, rfl⟩,
    ⟨(search_custom_never_reads_cache wSrcCustomSearch []
        [(searchKey wSrcCustomSearch "q", .items [subnetItem "stale"])]
        "q" false (fun _ _ => .ok ()) rfl).1,
      (search_custom_never_reads_cache wSrcCustomSearch []
        [(searchKey wSrcCustomSearch "q", .items [subnetItem "stale"])]
        "q" false (fun _ _ => .ok ()) rfl).2.1.1,
      (search_custom_never_reads_cache wSrcCustomSearchErr [] []
        "q" false (fun _ _ => .error (.plain "bad search query")) rfl).2.2.1
        (.plain "bad search query") rfl⟩⟩

/-! ### C3 -/

/-- Every `ParseARN` failure is a plain parse error (which `WrapAWSError`
then turns into an OTHER `QueryError`). -/
theorem ParseARN_error_plain (q : String) (e : GoErr)
    (h : ParseARN q = .error e) : ∃ m, e = .plain m := by
  unfold ParseARN at h
  split at h
  · simp at h
  · exact ⟨_, (Except.error.inj h).symm⟩

/-- C3: `Search` on a source with no `InputMapperSearch` parses the query
as an ARN.  When the scope formed from the ARN's account and region equals
the requested (source) scope, Search delegates to `Get` with the ARN's
resource-id portion: a successful `Get` yields exactly that single item
(cache and effects passed through from `Get`), a `Get` error is returned
wrapped.  When the ARN scope differs, Search returns a NOSCOPE
`QueryError` without calling `Get` (cache unchanged, zero effects).  An
unparseable ARN yields a wrapped OTHER error, not a crash. -/
theorem search_arn_default_delegates {Input Output : Type}
    (s : DescribeOnlySource Input Output) (cache : Cache)
    (query : String) (ignoreCache : Bool)
    (hm : s.InputMapperSearch = none) :
    (∀ a, ParseARN query = .ok a →
      FormatScope a.arnAccountID a.arnRegion
          = FormatScope s.AccountID s.Region →
      (∀ it, (s.Get cache (FormatScope s.AccountID s.Region) a.resourceID
            ignoreCache).err = none →
        (s.Get cache (FormatScope s.AccountID s.Region) a.resourceID
            ignoreCache).item = some it →
        s.Search cache (FormatScope s.AccountID s.Region) query ignoreCache
          = ⟨[it], none,
              (s.Get cache (FormatScope s.AccountID s.Region) a.resourceID
                ignoreCache).cache,
              (s.Get cache (FormatScope s.AccountID s.Region) a.resourceID
                ignoreCache).eff⟩)
      ∧ (∀ e, (s.Get cache (FormatScope s.AccountID s.Region) a.resourceID
            ignoreCache).err = some e →
        s.Search cache (FormatScope s.AccountID s.Region) query ignoreCache
          = ⟨[], some (WrapAWSError e),
              (s.Get cache (FormatScope s.AccountID s.Region) a.resourceID
                ignoreCache).cache,
              (s.Get cache (FormatScope s.AccountID s.Region) a.resourceID
                ignoreCache).eff⟩))
    ∧ (∀ a, ParseARN query = .ok a →
        FormatScope a.arnAccountID a.arnRegion
            ≠ FormatScope s.AccountID s.Region →
        s.Search cache (FormatScope s.AccountID s.Region) query ignoreCache
          = ⟨[], some (.query ⟨.NOSCOPE,
              "ARN scope " ++ FormatScope a.arnAccountID a.arnRegion
                ++ " does not match request scope "
                ++ FormatScope s.AccountID s.Region,
              FormatScope s.AccountID s.Region⟩), cache, noEffects⟩)
    ∧ (∀ e, ParseARN query = .error e →
        goErrKind (WrapAWSError e) = some .OTHER
          ∧ s.Search cache (FormatScope s.AccountID s.Region) query
              ignoreCache
            = ⟨[], some (WrapAWSError e), cache, noEffects⟩) := by
  have heval :
      s.Search cache (FormatScope s.AccountID s.Region) query ignoreCache
        = s.searchARN cache (FormatScope s.AccountID s.Region) query
            ignoreCache := by
    simp [DescribeOnlySource.Search, hm]
  refine ⟨?_, ?_, ?_⟩
  · intro a hp hsc
    constructor
    · intro it herr hitem
      rw [heval]
      simp [DescribeOnlySource.searchARN, hp, hsc, herr, hitem]
    · intro e herr
      rw [heval]
      simp [DescribeOnlySource.searchARN, hp, hsc, herr]
  · intro a hp hsc
    rw [heval]
    simp [DescribeOnlySource.searchARN, hp, hsc]
  · intro e hp
    obtain ⟨m, rfl⟩ := ParseARN_error_plain query e hp
    refine ⟨rfl, ?_⟩
    rw [heval]
    simp [DescribeOnlySource.searchARN, hp]

/-- Witness for C3: the spec's ARN example against the concrete
single-item source — delegation on the matching account, NOSCOPE on the
mismatched account, wrapped OTHER error on a malformed ARN. -/
theorem search_arn_default_delegates_witness :
    (wSrcOne.InputMapperSearch = none
      ∧ ParseARN "arn:aws:service:region:111111111111:resource/abc"
        = .ok ⟨"aws", "service", "region", "111111111111", "resource/abc"⟩
      ∧ (⟨"aws", "service", "region", "111111111111",
          "resource/abc"⟩ : ARN).resourceID = "abc"
      ∧ (wSrcOne.Get [] (FormatScope wSrcOne.AccountID wSrcOne.Region)
          "abc" false).item = some (subnetItem "abc"))
    ∧ wSrcOne.Search [] (FormatScope wSrcOne.AccountID wSrcOne.Region)
        "arn:aws:service:region:111111111111:resource/abc" false
      = ⟨[subnetItem "abc"], none,
          (wSrcOne.Get [] (FormatScope wSrcOne.AccountID wSrcOne.Region)
            "abc" false).cache,
          (wSrcOne.Get [] (FormatScope wSrcOne.AccountID wSrcOne.Region)
            "abc" false).eff⟩
    ∧ wSrcOne.Search [] (FormatScope wSrcOne.AccountID wSrcOne.Region)
        "arn:aws:service:region:222222222222:resource/abc" false
      = ⟨[], some (.query ⟨.NOSCOPE,
          "ARN scope " ++ FormatScope "222222222222" "region"
            ++ " does not match request scope "
            ++ FormatScope wSrcOne.AccountID wSrcOne.Region,
          FormatScope wSrcOne.AccountID wSrcOne.Region⟩), [], noEffects⟩
    ∧ wSrcOne.Search [] (FormatScope wSrcOne.AccountID wSrcOne.Region)
        "not-an-arn" false
      = ⟨[], some (WrapAWSError (.plain "invalid ARN: not-an-arn")), [],
          noEffects⟩ :=
  ⟨⟨rfl, rfl, rfl, by decide⟩,
    ((search_arn_default_delegates wSrcOne []
        "arn:aws:service:region:111111111111:resource/abc" false rfl).1
      ⟨"aws", "service", "region", "111111111111", "resource/abc"⟩
      rfl rfl).1 (subnetItem "abc") (by decide) (by decide),
    (search_arn_default_delegates wSrcOne []
        "arn:aws:service:region:222222222222:resource/abc" false rfl).2.1
      ⟨"aws", "service", "region", "222222222222", "resource/abc"⟩
      rfl (by decide),
    ((search_arn_default_delegates wSrcOne [] "not-an-arn" false rfl).2.2
      (.plain "invalid ARN: not-an-arn") rfl).2⟩

/-! ### C4 -/

/-- Draining a paginator whose pages all succeed and all output-map
successfully accumulates the mapped pages in order and counts one
`NextPage` call per page. -/
theorem drainPaginator_ok {Input Output : Type}
    (s : DescribeOnlySource Input Output) (scope : String) (input : Input)
    (f : Output → List Item) (outs : List Output) :
    ∀ (acc : List Item) (n : Nat),
      (∀ o ∈ outs, s.OutputMapper scope input o = .ok (f o)) →
      drainPaginator s scope input (outs.map Except.ok) acc n
        = (.ok (acc ++ (outs.map f).flatten), n + outs.length) := by
  induction outs with
  | nil => intro acc n _; simp [drainPaginator]
  | cons o rest ih =>
      intro acc n h
      have ho := h o (List.mem_cons_self o rest)
      have hrec := ih (acc ++ f o) (n + 1)
        (fun x hx => h x (List.mem_cons_of_mem o hx))
      simp only [List.map_cons, drainPaginator, ho, hrec]
      have hn : n + 1 + rest.length = n + (rest.length + 1) := by omega
      simp [List.append_assoc, hn]

/-- A failing `NextPage` call aborts the drain with that error after the
successful prefix, discarding all accumulated items. -/
theorem drainPaginator_page_err {Input Output : Type}
    (s : DescribeOnlySource Input Output) (scope : String) (input : Input)
    (f : Output → List Item) (outs : List Output) (e : GoErr)
    (rest : List (Except GoErr Output)) :
    ∀ (acc : List Item) (n : Nat),
      (∀ o ∈ outs, s.OutputMapper scope input o = .ok (f o)) →
      drainPaginator s scope input
          (outs.map Except.ok ++ .error e :: rest) acc n
        = (.error e, n + outs.length + 1) := by
  induction outs with
  | nil => intro acc n _; simp [drainPaginator]
  | cons o outs ih =>
      intro acc n h
      have ho := h o (List.mem_cons_self o outs)
      have hrec := ih (acc ++ f o) (n + 1)
        (fun x hx => h x (List.mem_cons_of_mem o hx))
      simp only [List.map_cons, List.cons_append, List.append_eq,
        List.length_cons, drainPaginator, ho]
      rw [hrec]
      have hn : n + 1 + outs.length + 1 = n + (outs.length + 1) + 1 := by
        omega
      rw [hn]

/-- A failing `OutputMapper` call aborts the drain with that error after
the successful prefix, discarding all accumulated items. -/
theorem drainPaginator_mapper_err {Input Output : Type}
    (s : DescribeOnlySource Input Output) (scope : String) (input : Input)
    (f : Output → List Item) (outs : List Output) (bad : Output)
    (e : GoErr) (rest : List (Except GoErr Output)) :
    ∀ (acc : List Item) (n : Nat),
      (∀ o ∈ outs, s.OutputMapper scope input o = .ok (f o)) →
      s.OutputMapper scope input bad = .error e →
      drainPaginator s scope input
          (outs.map Except.ok ++ .ok bad :: rest) acc n
        = (.error e, n + outs.length + 1) := by
  induction outs with
  | nil => intro acc n _ hbad; simp [drainPaginator, hbad]
  | cons o outs ih =>
      intro acc n h hbad
      have ho := h o (List.mem_cons_self o outs)
      have hrec := ih (acc ++ f o) (n + 1)
        (fun x hx => h x (List.mem_cons_of_mem o hx)) hbad
      simp only [List.map_cons, List.cons_append, List.append_eq,
        List.length_cons, drainPaginator, ho]
      rw [hrec]
      have hn : n + 1 + outs.length + 1 = n + (outs.length + 1) + 1 := by
        omega
      rw [hn]

/-- C4: with a `PaginatorBuilder`, the `describe` routine used by `List`
returns the in-order concatenation of `OutputMapper` applied to each page,
with `NextPage` invoked exactly once per page and `DescribeFunc` not at
all; if any `NextPage` or `OutputMapper` call errors, the whole operation
yields that error and zero items (the error-free prefix is discarded), and
`List` then returns the wrapped error with an empty item list, storing
only the error. -/
theorem describe_paginated_drains_pages {Input Output : Type}
    (s : DescribeOnlySource Input Output) (input : Input) (scope : String)
    (pb : Input → List (Except GoErr Output))
    (f : Output → List Item) (outs : List Output)
    (e : GoErr) (rest : List (Except GoErr Output)) (bad : Output)
    (hpb : s.PaginatorBuilder = some pb)
    (hf : ∀ o ∈ outs, s.OutputMapper scope input o = .ok (f o)) :
    (pb input = outs.map Except.ok →
      s.describe input scope = (.ok ((outs.map f).flatten), outs.length, 0))
    ∧ (pb input = outs.map Except.ok ++ .error e :: rest →
      s.describe input scope = (.error e, outs.length + 1, 0))
    ∧ (pb input = outs.map Except.ok ++ .ok bad :: rest →
      s.OutputMapper scope input bad = .error e →
      s.describe input scope = (.error e, outs.length + 1, 0))
    ∧ (∀ (cache : Cache) (mapper : String → Except GoErr Input),
        scope = FormatScope s.AccountID s.Region →
        entryAt cache (listKey s) = none →
        s.InputMapperList = some mapper →
        mapper scope = .ok input →
        pb input = outs.map Except.ok ++ .error e :: rest →
        s.list cache scope false
          = ⟨[], some (WrapAWSError e),
              storeError cache (listKey s) (WrapAWSError e),
              ⟨1, 0, outs.length + 1, 0, 1⟩⟩) := by
  have hdesc_err : pb input = outs.map Except.ok ++ .error e :: rest →
      s.describe input scope = (.error e, outs.length + 1, 0) := by
    intro hpages
    simp only [DescribeOnlySource.describe, hpb]
    rw [hpages, drainPaginator_page_err s scope input f outs e rest [] 0 hf]
    simp
  refine ⟨?_, hdesc_err, ?_, ?_⟩
  · intro hpages
    simp only [DescribeOnlySource.describe, hpb]
    rw [hpages, drainPaginator_ok s scope input f outs [] 0 hf]
    simp
  · intro hpages hbad
    simp only [DescribeOnlySource.describe, hpb]
    rw [hpages,
      drainPaginator_mapper_err s scope input f outs bad e rest [] 0 hf hbad]
    simp
  · intro cache mapper hscope hmiss hlist hin hpages
    subst hscope
    simp only [listKey] at hmiss ⊢
    have hck := cacheLookup_miss _ _ hmiss
    have hd := hdesc_err hpages
    simp [DescribeOnlySource.list, DescribeOnlySource.validate, hck, hlist,
      hin, hd]

/-- Witness for C4: the concrete paginator with 3 pages of 2/2/1 items
yields exactly 5 items with 3 `NextPage` calls; with page 2 failing, the
describe yields the error after 2 `NextPage` calls with zero items, and
`List` returns the wrapped error and an empty item list. -/
theorem describe_paginated_drains_pages_witness :
    (wSrcPaginated.PaginatorBuilder = some (fun _ => wPages)
      ∧ wPages.length = 3
      ∧ wSrcPaginatedErr.PaginatorBuilder = some (fun _ => wPagesErr))
    ∧ wSrcPaginated.describe ()
        (FormatScope wSrcPaginated.AccountID wSrcPaginated.Region)
      = (.ok [subnetItem "a", subnetItem "b", subnetItem "c",
          subnetItem "d", subnetItem "e"], 3, 0)
    ∧ wSrcPaginatedErr.describe ()
        (FormatScope wSrcPaginatedErr.AccountID wSrcPaginatedErr.Region)
      = (.error (.plain "page 2 failed"), 2, 0)
    ∧ wSrcPaginatedErr.list []
        (FormatScope wSrcPaginatedErr.AccountID wSrcPaginatedErr.Region)
        false
      = ⟨[], some (WrapAWSError (.plain "page 2 failed")),
          storeError [] (listKey wSrcPaginatedErr)
            (WrapAWSError (.plain "page 2 failed")), ⟨1, 0, 2, 0, 1⟩⟩ :=
  ⟨⟨rfl, rfl, rfl⟩,
    (describe_paginated_drains_pages wSrcPaginated ()
        (FormatScope wSrcPaginated.AccountID wSrcPaginated.Region)
        (fun _ => wPages) (fun out => out.map subnetItem)
        [["a", "b"], ["c", "d"], ["e"]] (.plain "") [] [] rfl
        (fun _ _ => rfl)).1 rfl,
    (describe_paginated_drains_pages wSrcPaginatedErr ()
        (FormatScope wSrcPaginatedErr.AccountID wSrcPaginatedErr.Region)
        (fun _ => wPagesErr) (fun out => out.map subnetItem) [["a", "b"]]
        (.plain "page 2 failed") [.ok ["e"]] [] rfl
        (fun _ _ => rfl)).2.1 rfl,
    (describe_paginated_drains_pages wSrcPaginatedErr ()
        (FormatScope wSrcPaginatedErr.AccountID wSrcPaginatedErr.Region)
        (fun _ => wPagesErr) (fun out => out.map subnetItem) [["a", "b"]]
        (.plain "page 2 failed") [.ok ["e"]] [] rfl
        (fun _ _ => rfl)).2.2.2
      [] (fun _ => .ok ()) rfl (by decide) rfl rfl rfl⟩
